import Mathlib

/-! Verification of the flanks Python client's transport core.

This file gives a shallow embedding of the transport/session core of the
flanks client library (`flanks/connection.py`), its generic pagination
driver (`flanks/base.py`), and the paged-result container, and proves
theorems about the embedded definitions.

HTTP traffic is modelled by oracles: an environment supplies, for each
endpoint, the outcome of the i-th request sent to it.  The interpreter
threads an explicit running state recording the session token fields, how
many requests were sent to each endpoint, and an ordered event trace
(requests sent, backoff sleeps). -/

namespace Flanks

/-- JSON values as decoded by `response.json()`. -/
inductive Json : Type
  | null : Json
  | bool (b : Bool) : Json
  | num (n : Int) : Json
  | str (s : String) : Json
  | arr (elems : List Json) : Json
  | obj (fields : List (String × Json)) : Json

mutual

/-- Decidable equality of JSON values. -/
def Json.decEq : (a b : Json) → Decidable (a = b)
  | .null, .null => isTrue rfl
  | .bool a, .bool b =>
    if h : a = b then isTrue (h ▸ rfl) else isFalse (fun hh => h (Json.bool.inj hh))
  | .num a, .num b =>
    if h : a = b then isTrue (h ▸ rfl) else isFalse (fun hh => h (Json.num.inj hh))
  | .str a, .str b =>
    if h : a = b then isTrue (h ▸ rfl) else isFalse (fun hh => h (Json.str.inj hh))
  | .arr xs, .arr ys =>
    match Json.decEqList xs ys with
    | isTrue h => isTrue (h ▸ rfl)
    | isFalse h => isFalse (fun hh => h (Json.arr.inj hh))
  | .obj xs, .obj ys =>
    match Json.decEqFields xs ys with
    | isTrue h => isTrue (h ▸ rfl)
    | isFalse h => isFalse (fun hh => h (Json.obj.inj hh))
  | .null, .bool _ => isFalse (fun h => Json.noConfusion h)
  | .null, .num _ => isFalse (fun h => Json.noConfusion h)
  | .null, .str _ => isFalse (fun h => Json.noConfusion h)
  | .null, .arr _ => isFalse (fun h => Json.noConfusion h)
  | .null, .obj _ => isFalse (fun h => Json.noConfusion h)
  | .bool _, .null => isFalse (fun h => Json.noConfusion h)
  | .bool _, .num _ => isFalse (fun h => Json.noConfusion h)
  | .bool _, .str _ => isFalse (fun h => Json.noConfusion h)
  | .bool _, .arr _ => isFalse (fun h => Json.noConfusion h)
  | .bool _, .obj _ => isFalse (fun h => Json.noConfusion h)
  | .num _, .null => isFalse (fun h => Json.noConfusion h)
  | .num _, .bool _ => isFalse (fun h => Json.noConfusion h)
  | .num _, .str _ => isFalse (fun h => Json.noConfusion h)
  | .num _, .arr _ => isFalse (fun h => Json.noConfusion h)
  | .num _, .obj _ => isFalse (fun h => Json.noConfusion h)
  | .str _, .null => isFalse (fun h => Json.noConfusion h)
  | .str _, .bool _ => isFalse (fun h => Json.noConfusion h)
  | .str _, .num _ => isFalse (fun h => Json.noConfusion h)
  | .str _, .arr _ => isFalse (fun h => Json.noConfusion h)
  | .str _, .obj _ => isFalse (fun h => Json.noConfusion h)
  | .arr _, .null => isFalse (fun h => Json.noConfusion h)
  | .arr _, .bool _ => isFalse (fun h => Json.noConfusion h)
  | .arr _, .num _ => isFalse (fun h => Json.noConfusion h)
  | .arr _, .str _ => isFalse (fun h => Json.noConfusion h)
  | .arr _, .obj _ => isFalse (fun h => Json.noConfusion h)
  | .obj _, .null => isFalse (fun h => Json.noConfusion h)
  | .obj _, .bool _ => isFalse (fun h => Json.noConfusion h)
  | .obj _, .num _ => isFalse (fun h => Json.noConfusion h)
  | .obj _, .str _ => isFalse (fun h => Json.noConfusion h)
  | .obj _, .arr _ => isFalse (fun h => Json.noConfusion h)

/-- Decidable equality of JSON value lists. -/
def Json.decEqList : (xs ys : List Json) → Decidable (xs = ys)
  | [], [] => isTrue rfl
  | [], _ :: _ => isFalse (fun h => List.noConfusion h)
  | _ :: _, [] => isFalse (fun h => List.noConfusion h)
  | x :: xs, y :: ys =>
    match Json.decEq x y with
    | isFalse h => isFalse (fun hh => h (List.cons.inj hh).1)
    | isTrue h1 =>
      match Json.decEqList xs ys with
      | isTrue h2 => isTrue (by rw [h1, h2])
      | isFalse h => isFalse (fun hh => h (List.cons.inj hh).2)

/-- Decidable equality of JSON object field lists. -/
def Json.decEqFields : (xs ys : List (String × Json)) → Decidable (xs = ys)
  | [], [] => isTrue rfl
  | [], _ :: _ => isFalse (fun h => List.noConfusion h)
  | _ :: _, [] => isFalse (fun h => List.noConfusion h)
  | (s, j) :: xs, (t, k) :: ys =>
    if hs : s = t then
      match Json.decEq j k with
      | isFalse h => isFalse (fun hh => h (congrArg Prod.snd (List.cons.inj hh).1))
      | isTrue h1 =>
        match Json.decEqFields xs ys with
        | isTrue h2 => isTrue (by rw [hs, h1, h2])
        | isFalse h => isFalse (fun hh => h (List.cons.inj hh).2)
    else isFalse (fun hh => hs (congrArg Prod.fst (List.cons.inj hh).1))

end

instance : DecidableEq Json := Json.decEq

deriving instance DecidableEq for Except

/-- Lookup of a key in a decoded JSON object, as Python's `dict.get`
(returns `none` on a missing key or a non-object). -/
def Json.get : Json → String → Option Json
  | .obj fields, k => fields.lookup k
  | _, _ => none

/-- Python truthiness of a decoded JSON value; the pagination loop stops
when `not page_token` holds. -/
def Json.falsy : Json → Bool
  | .null => true
  | .bool b => !b
  | .num n => n == 0
  | .str s => s == ""
  | .arr xs => xs.isEmpty
  | .obj fs => fs.isEmpty

/-- Completed HTTP response: status code plus decoded JSON body. -/
structure Response where
  status : Nat
  body : Json
  deriving DecidableEq

/-- Outcome of one HTTP round trip: either a completed response, or an
httpx transport exception (connection refused, DNS failure, timeout)
carrying its message. -/
inductive HttpResult : Type
  | ok (resp : Response) : HttpResult
  | exn (msg : String) : HttpResult
  deriving DecidableEq

/-- Exceptions a call can raise.  The first five constructors are the
classified taxonomy of `flanks/exceptions.py` (FlanksAuthError,
FlanksValidationError, FlanksNotFoundError, FlanksServerError,
FlanksNetworkError); `httpxError` stands for a raw httpx exception
propagating unwrapped (a transport error or `raise_for_status`), and
`keyError` / `runtimeError` / `typeError` mirror the Python built-ins. -/
inductive Exc : Type
  | authError (msg : String) (status : Option Nat) (body : Option Json)
  | validationError (msg : String) (status : Option Nat) (body : Option Json)
  | notFoundError (msg : String) (status : Option Nat) (body : Option Json)
  | serverError (msg : String) (status : Option Nat) (body : Option Json)
  | networkError (msg : String) (cause : Option String)
  | httpxError (msg : String)
  | keyError (key : String)
  | runtimeError (msg : String)
  | typeError (msg : String)
  deriving DecidableEq

/-- Membership in the classified error taxonomy surfaced to callers. -/
def Exc.isClassified : Exc → Bool
  | .authError _ _ _ => true
  | .validationError _ _ _ => true
  | .notFoundError _ _ _ => true
  | .serverError _ _ _ => true
  | .networkError _ _ => true
  | _ => false

/-- Test for the Auth kind (FlanksAuthError). -/
def Exc.isAuth : Exc → Bool
  | .authError _ _ _ => true
  | _ => false

/-- Immutable connection configuration (`FlanksConnection.__init__`). -/
structure ConnConfig where
  clientId : String
  clientSecret : String
  retries : Nat
  retryBackoff : Int
  deriving DecidableEq

/-- Mutable session state: the cached bearer token and its absolute
expiry timestamp (`_access_token`, `_token_expires_at`). -/
structure ConnState where
  accessToken : Option String
  tokenExpiresAt : Int
  deriving DecidableEq

/-- Environment of one call: the current wall-clock time and, for each
endpoint, the oracle giving the outcome of the i-th request sent to it. -/
structure Env where
  now : Int
  tokenResp : Nat → HttpResult
  mainResp : Nat → HttpResult

/-- Observable effects of a run, in order. -/
inductive Event : Type
  | tokenReq (clientId clientSecret grantType : String)
  | mainReq (bearer : Option String)
  | sleep (seconds : Int)
  deriving DecidableEq

/-- Running state of an interpretation: session state, number of requests
sent to the token endpoint and to the call path, and the event trace. -/
structure RunSt where
  conn : ConnState
  tCount : Nat
  mCount : Nat
  trace : List Event
  deriving DecidableEq

/-- One run of `FlanksConnection._refresh_token`: POST /v0/token with the
client credentials and grant_type "client_credentials".  A transport
failure propagates unwrapped; status 403 raises FlanksAuthError with the
status and raw body; any other non-2xx raises through
`response.raise_for_status()` (an httpx error, unwrapped); a 2xx response
stores `access_token` and sets the expiry to now + `expires_in`. -/
def refreshStep (cfg : ConnConfig) (env : Env) (rs : RunSt) : RunSt × Option Exc :=
  let r := env.tokenResp rs.tCount
  let rs1 : RunSt :=
    { rs with
      tCount := rs.tCount + 1
      trace := rs.trace ++ [Event.tokenReq cfg.clientId cfg.clientSecret "client_credentials"] }
  match r with
  | .exn m => (rs1, some (Exc.httpxError m))
  | .ok resp =>
    if resp.status == 403 then
      (rs1, some (Exc.authError "Invalid client credentials" (some 403) (some resp.body)))
    else if resp.status < 200 || 300 ≤ resp.status then
      (rs1, some (Exc.httpxError ("HTTP status " ++ toString resp.status)))
    else
      match resp.body.get "access_token", resp.body.get "expires_in" with
      | some (Json.str tok), some (Json.num n) =>
        ({ rs1 with conn := { accessToken := some tok, tokenExpiresAt := env.now + n } },
         none)
      | _, _ => (rs1, some (Exc.keyError "access_token"))

/-- Execution of `FlanksConnection._ensure_token`: refresh when the token
expires within the 300-second safety margin, i.e. when
`time.time() > self._token_expires_at - 300`. -/
def ensureTokenStep (cfg : ConnConfig) (env : Env) (rs : RunSt) : RunSt × Option Exc :=
  if rs.conn.tokenExpiresAt - 300 < env.now then refreshStep cfg env rs
  else (rs, none)

/-- Classification `FlanksConnection._execute` applies to one HTTP
outcome: an httpx transport error is wrapped as FlanksNetworkError with
message `str(e)` and the error as cause; statuses 401 / 400 / 404 / ≥500
raise the corresponding classified error carrying the status and decoded
body; any other status returns the decoded JSON body. -/
def classify : HttpResult → Except Exc Json
  | .exn m => Except.error (Exc.networkError m (some m))
  | .ok resp =>
    if resp.status == 401 then
      Except.error (Exc.authError "Invalid or expired token" (some 401) (some resp.body))
    else if resp.status == 400 then
      Except.error (Exc.validationError "Validation error" (some 400) (some resp.body))
    else if resp.status == 404 then
      Except.error (Exc.notFoundError "Resource not found" (some 404) (some resp.body))
    else if 500 ≤ resp.status then
      Except.error (Exc.serverError "Server error" (some resp.status) (some resp.body))
    else
      Except.ok resp.body

/-- Running state after recording one call-path request sent with the
current bearer token. -/
def recordMain (rs : RunSt) : RunSt :=
  { rs with
    mCount := rs.mCount + 1
    trace := rs.trace ++ [Event.mainReq rs.conn.accessToken] }

/-- Running state after recording one backoff sleep of `d` seconds. -/
def recordSleep (rs : RunSt) (d : Int) : RunSt :=
  { rs with trace := rs.trace ++ [Event.sleep d] }

/-- One run of `FlanksConnection._execute`: send the request with the
current bearer token, then classify the outcome. -/
def executeStep (env : Env) (rs : RunSt) : RunSt × Except Exc Json :=
  (recordMain rs, classify (env.mainResp rs.mCount))

/-- Retry loop of `FlanksConnection.api_call`: `for attempt in
range(retries + 1)`, execute once; a FlanksServerError is stored as the
last error and, when `attempt < retries`, followed by a sleep of
`retry_backoff * 2 ** attempt`; a FlanksAuthError triggers one token
refresh plus one retry whose outcome (success or any exception) is final;
any other exception propagates; when the loop ends the stored server
error is raised, else RuntimeError. -/
def apiLoop (cfg : ConnConfig) (env : Env) :
    Nat → Nat → Option Exc → RunSt → RunSt × Except Exc Json
  | 0, _, lastError, rs =>
    match lastError with
    | some e => (rs, Except.error e)
    | none => (rs, Except.error (Exc.runtimeError "Unexpected state: no result and no error"))
  | fuel + 1, attempt, _lastError, rs =>
    match executeStep env rs with
    | (rs1, Except.ok v) => (rs1, Except.ok v)
    | (rs1, Except.error e) =>
      match e with
      | Exc.serverError m st b =>
        let rs2 :=
          if attempt < cfg.retries then
            recordSleep rs1 (cfg.retryBackoff * 2 ^ attempt)
          else rs1
        apiLoop cfg env fuel (attempt + 1) (some (Exc.serverError m st b)) rs2
      | Exc.authError _ _ _ =>
        match refreshStep cfg env rs1 with
        | (rs2, some e2) => (rs2, Except.error e2)
        | (rs2, none) => executeStep env rs2
      | _ => (rs1, Except.error e)

/-- Execution of `FlanksConnection.api_call` with `response_model = None`:
ensure a valid token, then run the retry loop with `retries + 1`
available attempts. -/
def apiCall (cfg : ConnConfig) (env : Env) (st0 : ConnState) : RunSt × Except Exc Json :=
  let rs0 : RunSt := { conn := st0, tCount := 0, mCount := 0, trace := [] }
  match ensureTokenStep cfg env rs0 with
  | (rs1, some e) => (rs1, Except.error e)
  | (rs1, none) => apiLoop cfg env (cfg.retries + 1) 0 none rs1

/-- Payload of one pagination request: the fixed body template with the
current page token, as `{**body, "page_token": page_token}`. -/
def pagePayload (body : List (String × Json)) (tok : Json) : List (String × Json) :=
  body ++ [("page_token", tok)]

/-- Execution of `BaseClient._paginate` against the list of successive
successful api_call results: returns the request payloads sent, the items
yielded in order, and the exception aborting iteration if any (`none` in
the third component means normal termination); the whole result is `none`
when the oracle holds fewer pages than the driver requests.  A non-dict
response raises TypeError, a missing items key raises KeyError, and the
loop stops when the response's `next_page_token` is falsy (absent, null,
or empty). -/
def paginateGo (body : List (String × Json)) (itemKey : String) :
    List Json → Json → Option (List (List (String × Json)) × List Json × Option Exc)
  | [], _ => none
  | page :: rest, tok =>
    let payload := pagePayload body tok
    match page with
    | Json.obj _ =>
      match page.get itemKey with
      | none => some ([payload], [], some (Exc.keyError itemKey))
      | some (Json.arr items) =>
        let next := (page.get "next_page_token").getD Json.null
        if next.falsy then some ([payload], items, none)
        else
          match paginateGo body itemKey rest next with
          | none => none
          | some (reqs, moreItems, exc) => some (payload :: reqs, items ++ moreItems, exc)
      | some _ => some ([payload], [], some (Exc.typeError "response items not a list"))
    | _ => some ([payload], [], some (Exc.typeError "Expected dict response"))

/-- Modelled from the spec: `flanks/pagination.py` is absent from the
source tree (only `tests/test_pagination.py` references it).  Per the
spec's Paged Result data model, a page holds an ordered item sequence and
an optional opaque continuation token. -/
structure PagedResponse (α : Type) where
  items : List α
  next_page_token : Option String
  deriving DecidableEq

/-- Modelled from the spec: `has_next()` is true iff `next_page_token` is
present and a non-empty string. -/
def PagedResponse.has_next {α : Type} (r : PagedResponse α) : Bool :=
  match r.next_page_token with
  | none => false
  | some s => s != ""

/-- Oracle entry that is a completed 401 response. -/
def isAuthResult : HttpResult → Bool
  | .ok resp => resp.status == 401
  | .exn _ => false

/-- Oracle entry that is a completed response with status at least 500. -/
def isServer5xx : HttpResult → Bool
  | .ok resp => decide (500 ≤ resp.status)
  | .exn _ => false

/-- Seconds of the sleep events of a trace, in order. -/
def sleepSeconds : List Event → List Int
  | [] => []
  | Event.sleep d :: es => d :: sleepSeconds es
  | Event.tokenReq _ _ _ :: es => sleepSeconds es
  | Event.mainReq _ :: es => sleepSeconds es

/-- Expected backoff sleeps of a run that performed `k` sleeps starting at
attempt index `attempt`: `b * 2 ^ attempt`, `b * 2 ^ (attempt + 1)`, ... -/
def expectedSleeps (b : Int) (attempt : Nat) : Nat → List Int
  | 0 => []
  | k + 1 => b * 2 ^ attempt :: expectedSleeps b (attempt + 1) k

/-- Well-formed server page, for stating the pagination contract. -/
structure Page where
  items : List Json
  next : Json
  deriving DecidableEq

/-- JSON encoding of a well-formed page under a given items key. -/
def Page.encode (key : String) (p : Page) : Json :=
  Json.obj [(key, Json.arr p.items), ("next_page_token", p.next)]

/-- Constant oracle, convenient for concrete environments. -/
def constResp (r : HttpResult) : Nat → HttpResult := fun _ => r

/-- Initial running state holding a token valid far into the future. -/
def rsFresh : RunSt := ⟨⟨some "tok", 1000000⟩, 0, 0, []⟩

/-- Concrete environment whose call path answers 404 with an empty object. -/
def envC1w : Env :=
  ⟨0, constResp (HttpResult.ok ⟨200, Json.null⟩), constResp (HttpResult.ok ⟨404, Json.obj []⟩)⟩

/-- Concrete environment whose call path answers 403 with an error body. -/
def envC1cx : Env :=
  ⟨0, constResp (HttpResult.ok ⟨200, Json.null⟩),
   constResp (HttpResult.ok ⟨403, Json.obj [("error", Json.str "forbidden")]⟩)⟩

/-- Environment answering the token endpoint with a well-formed exchange. -/
def envTokOk : Env :=
  ⟨0,
   constResp (HttpResult.ok
     ⟨200, Json.obj [("access_token", Json.str "t2"), ("expires_in", Json.num 3600),
                     ("token_type", Json.str "Bearer")]⟩),
   constResp (HttpResult.ok ⟨200, Json.obj [("result", Json.str "success")]⟩)⟩

/-- Running state holding a token that expires in 100 seconds. -/
def rsStale : RunSt := ⟨⟨some "old", 100⟩, 0, 0, []⟩

/-- Running state with no token ever acquired. -/
def rsNoTok : RunSt := ⟨⟨none, 0⟩, 0, 0, []⟩

/-- Environment whose token endpoint rejects the client credentials. -/
def envTok403 : Env :=
  ⟨1000, constResp (HttpResult.ok ⟨403, Json.obj [("error", Json.str "access_denied")]⟩),
   constResp (HttpResult.ok ⟨200, Json.null⟩)⟩

/-- Environment whose call path always fails at the transport level. -/
def envNetFail : Env :=
  ⟨0, constResp (HttpResult.ok ⟨200, Json.null⟩), constResp (HttpResult.exn "Connection refused")⟩

/-- Call-path oracle answering 401 on every attempt. -/
def mainAuthAuth : Nat → HttpResult
  | 0 => HttpResult.ok ⟨401, Json.obj [("error", Json.str "invalid token")]⟩
  | _ + 1 => HttpResult.ok ⟨401, Json.obj [("error", Json.str "still invalid")]⟩

/-- Environment answering 401 twice with a working token endpoint. -/
def envAuthAuth : Env := ⟨0, envTokOk.tokenResp, mainAuthAuth⟩

/-- Call-path oracle answering 401 and then 500. -/
def mainAuth500 : Nat → HttpResult
  | 0 => HttpResult.ok ⟨401, Json.obj [("error", Json.str "invalid token")]⟩
  | _ + 1 => HttpResult.ok ⟨500, Json.obj [("error", Json.str "server error")]⟩

/-- Environment answering 401 then 500 with a working token endpoint. -/
def envAuth500 : Env := ⟨0, envTokOk.tokenResp, mainAuth500⟩

/-- Call-path oracle answering 401 and then 200. -/
def mainAuthOk : Nat → HttpResult
  | 0 => HttpResult.ok ⟨401, Json.obj [("error", Json.str "invalid token")]⟩
  | _ + 1 => HttpResult.ok ⟨200, Json.obj [("result", Json.str "success")]⟩

/-- Environment answering 401 then 200 with a working token endpoint. -/
def envAuthOk : Env := ⟨0, envTokOk.tokenResp, mainAuthOk⟩

/-- Call-path oracle answering 500 twice, then 200. -/
def mainTwo500 : Nat → HttpResult
  | 0 => HttpResult.ok ⟨500, Json.obj [("error", Json.str "server error")]⟩
  | 1 => HttpResult.ok ⟨500, Json.obj [("error", Json.str "server error")]⟩
  | _ + 2 => HttpResult.ok ⟨200, Json.obj [("result", Json.str "success")]⟩

/-- Environment answering 500, 500, then 200. -/
def envTwo500 : Env := ⟨0, envTokOk.tokenResp, mainTwo500⟩

/-- Call-path oracle answering 500 three times, then 200. -/
def mainThree500 : Nat → HttpResult
  | 0 => HttpResult.ok ⟨500, Json.obj [("error", Json.str "server error")]⟩
  | 1 => HttpResult.ok ⟨500, Json.obj [("error", Json.str "server error")]⟩
  | 2 => HttpResult.ok ⟨500, Json.obj [("error", Json.str "server error")]⟩
  | _ + 3 => HttpResult.ok ⟨200, Json.obj [("result", Json.str "success")]⟩

/-- Environment answering three 500s followed by a 200. -/
def envThree500 : Env := ⟨0, envTokOk.tokenResp, mainThree500⟩

/-- Environment answering every call-path request with status 500. -/
def envAll500 : Env :=
  ⟨0, envTokOk.tokenResp,
   constResp (HttpResult.ok ⟨500, Json.obj [("error", Json.str "server error")]⟩)⟩

/-- Environment whose token endpoint fails at the transport level. -/
def envTokNetFail : Env :=
  ⟨1000, constResp (HttpResult.exn "Connection refused"),
   constResp (HttpResult.ok ⟨200, Json.null⟩)⟩

/-- First page of the pagination scenario: item "a", token "token2". -/
def pageA : Page := ⟨[Json.str "a"], Json.str "token2"⟩

/-- Second page of the pagination scenario: item "b", token "token3". -/
def pageB : Page := ⟨[Json.str "b"], Json.str "token3"⟩

/-- Last page of the pagination scenario: item "c", null token. -/
def pageC : Page := ⟨[Json.str "c"], Json.null⟩

/-- Classification errors always belong to the classified taxonomy. -/
theorem classify_classified (r : HttpResult) (e : Exc) (h : classify r = Except.error e) :
    e.isClassified = true := by
  cases r with
  | exn m =>
    simp only [classify, Except.error.injEq] at h
    rw [← h]; rfl
  | ok resp =>
    simp only [classify] at h
    split_ifs at h with h1 h2 h3 h4
    · rw [Except.error.injEq] at h; rw [← h]; rfl
    · rw [Except.error.injEq] at h; rw [← h]; rfl
    · rw [Except.error.injEq] at h; rw [← h]; rfl
    · rw [Except.error.injEq] at h; rw [← h]; rfl

/-- Classification raises an Auth error only on a completed 401 response. -/
theorem classify_auth (r : HttpResult) (e : Exc) (h : classify r = Except.error e)
    (ha : e.isAuth = true) : isAuthResult r = true := by
  cases r with
  | exn m =>
    simp only [classify, Except.error.injEq] at h
    rw [← h] at ha
    simp [Exc.isAuth] at ha
  | ok resp =>
    simp only [classify] at h
    split_ifs at h with h1 h2 h3 h4
    · simp [isAuthResult, h1]
    · rw [Except.error.injEq] at h; rw [← h] at ha; simp [Exc.isAuth] at ha
    · rw [Except.error.injEq] at h; rw [← h] at ha; simp [Exc.isAuth] at ha
    · rw [Except.error.injEq] at h; rw [← h] at ha; simp [Exc.isAuth] at ha

/-- Classification of a completed response with status at least 500. -/
theorem classify_server (resp : Response) (h : 500 ≤ resp.status) :
    classify (HttpResult.ok resp) =
      Except.error (Exc.serverError "Server error" (some resp.status) (some resp.body)) := by
  have h1 : (resp.status == 401) = false := by simp; omega
  have h2 : (resp.status == 400) = false := by simp; omega
  have h3 : (resp.status == 404) = false := by simp; omega
  simp [classify, h1, h2, h3, h]

/-- Classification raises a Server error only on a 5xx response. -/
theorem classify_server_inv (r : HttpResult) (m : String) (st : Option Nat) (b : Option Json)
    (h : classify r = Except.error (Exc.serverError m st b)) : isServer5xx r = true := by
  cases r with
  | exn m' => simp [classify] at h
  | ok resp =>
    simp only [classify] at h
    split_ifs at h with hh1 hh2 hh3 hh4 <;> simp_all [isServer5xx]

/-- Token refresh sends exactly one request to the token endpoint. -/
theorem refreshStep_tCount (cfg : ConnConfig) (env : Env) (rs : RunSt) :
    (refreshStep cfg env rs).1.tCount = rs.tCount + 1 := by
  simp only [refreshStep]
  split
  · rfl
  · split
    · rfl
    · split
      · rfl
      · split <;> rfl

/-- C1 (amended): the single-request executor classifies every completed
response before returning or raising: 400 raises Validation, 401 raises
Auth, 404 raises NotFound, a status of at least 500 raises Server with
the status and body preserved, and any other status — including non-2xx
statuses such as 403 or 409 — returns the decoded JSON body as success. -/
theorem c1_execute_classification (env : Env) (rs : RunSt) (resp : Response)
    (h : env.mainResp rs.mCount = HttpResult.ok resp) :
    (executeStep env rs).1.mCount = rs.mCount + 1 ∧
    (resp.status = 400 → (executeStep env rs).2 =
      Except.error (Exc.validationError "Validation error" (some 400) (some resp.body))) ∧
    (resp.status = 401 → (executeStep env rs).2 =
      Except.error (Exc.authError "Invalid or expired token" (some 401) (some resp.body))) ∧
    (resp.status = 404 → (executeStep env rs).2 =
      Except.error (Exc.notFoundError "Resource not found" (some 404) (some resp.body))) ∧
    (500 ≤ resp.status → (executeStep env rs).2 =
      Except.error (Exc.serverError "Server error" (some resp.status) (some resp.body))) ∧
    (resp.status ≠ 400 → resp.status ≠ 401 → resp.status ≠ 404 → resp.status < 500 →
      (executeStep env rs).2 = Except.ok resp.body) := by
  refine ⟨rfl, ?_, ?_, ?_, ?_, ?_⟩
  · intro h1; simp [executeStep, classify, h, h1]
  · intro h1; simp [executeStep, classify, h, h1]
  · intro h1; simp [executeStep, classify, h, h1]
  · intro h1; simp [executeStep, h, classify_server resp h1]
  · intro h1 h2 h3 h4
    have e1 : (resp.status == 401) = false := by simp [h2]
    have e2 : (resp.status == 400) = false := by simp [h1]
    have e3 : (resp.status == 404) = false := by simp [h3]
    simp [executeStep, classify, h, e1, e2, e3, h4, Nat.not_le.mpr h4]

/-- Witness for C1: the executor maps a concrete 404 response to NotFound. -/
theorem c1_execute_classification_witness :
    (executeStep envC1w rsFresh).2 =
      Except.error (Exc.notFoundError "Resource not found" (some 404) (some (Json.obj []))) :=
  (c1_execute_classification envC1w rsFresh ⟨404, Json.obj []⟩ rfl).2.2.2.1 rfl

/-- Counterexample to C1 as stated: a 403 response on a regular (non-token)
call is returned by the executor as a successful decoded body — it is not
raised as an unclassified API error, and a non-2xx status thus yields
success, contrary to the claim. -/
theorem c1_execute_classification_cx :
    (executeStep envC1cx rsFresh).2 = Except.ok (Json.obj [("error", Json.str "forbidden")]) := by
  rfl

/-- C4: ensureToken performs zero network calls (and no state change) when
the expiry is more than 300 seconds away; when the expiry is within 300
seconds of now, or the token was never acquired (absent, expiry 0), it
sends exactly one token exchange, and on a well-formed 2xx exchange
response it stores the new access token and sets the expiry to
now + expires_in. -/
theorem c4_ensure_token (cfg : ConnConfig) (env : Env) (rs : RunSt)
    (tb : Json) (tok : String) (expIn : Int) :
    (300 < rs.conn.tokenExpiresAt - env.now → ensureTokenStep cfg env rs = (rs, none)) ∧
    (rs.conn.tokenExpiresAt - env.now < 300 →
      (ensureTokenStep cfg env rs).1.tCount = rs.tCount + 1 ∧
      (env.tokenResp rs.tCount = HttpResult.ok ⟨200, tb⟩ →
       tb.get "access_token" = some (Json.str tok) →
       tb.get "expires_in" = some (Json.num expIn) →
       ensureTokenStep cfg env rs =
         ({ rs with
            conn := ⟨some tok, env.now + expIn⟩
            tCount := rs.tCount + 1
            trace := rs.trace ++
              [Event.tokenReq cfg.clientId cfg.clientSecret "client_credentials"] },
          none))) ∧
    (rs.conn.accessToken = none → rs.conn.tokenExpiresAt = 0 → 0 ≤ env.now →
      (ensureTokenStep cfg env rs).1.tCount = rs.tCount + 1) := by
  refine ⟨?_, ?_, ?_⟩
  · intro h
    have hc : ¬(rs.conn.tokenExpiresAt - 300 < env.now) := by linarith
    simp [ensureTokenStep, hc]
  · intro h
    have hc : rs.conn.tokenExpiresAt - 300 < env.now := by linarith
    refine ⟨?_, ?_⟩
    · simp [ensureTokenStep, hc, refreshStep_tCount]
    · intro h1 h2 h3
      simp [ensureTokenStep, hc, refreshStep, h1, h2, h3]
  · intro h1 h2 h3
    have hc : rs.conn.tokenExpiresAt - 300 < env.now := by rw [h2]; linarith
    simp [ensureTokenStep, hc, refreshStep_tCount]

/-- Witness for C4 at concrete inputs: a fresh token short-circuits, a
token expiring in 100 seconds triggers exactly one exchange that updates
both fields, and an absent token triggers exactly one exchange. -/
theorem c4_ensure_token_witness :
    ensureTokenStep ⟨"id", "secret", 1, 1⟩ envTokOk rsFresh = (rsFresh, none) ∧
    ensureTokenStep ⟨"id", "secret", 1, 1⟩ envTokOk rsStale =
      ({ rsStale with
         conn := ⟨some "t2", (0 : Int) + 3600⟩
         tCount := 1
         trace := [Event.tokenReq "id" "secret" "client_credentials"] }, none) ∧
    (ensureTokenStep ⟨"id", "secret", 1, 1⟩ envTokOk rsNoTok).1.tCount = 1 := by
  refine ⟨?_, ?_, ?_⟩
  · exact (c4_ensure_token ⟨"id", "secret", 1, 1⟩ envTokOk rsFresh Json.null "" 0).1
      (by norm_num [rsFresh, envTokOk])
  · exact (c4_ensure_token ⟨"id", "secret", 1, 1⟩ envTokOk rsStale
      (Json.obj [("access_token", Json.str "t2"), ("expires_in", Json.num 3600),
                 ("token_type", Json.str "Bearer")]) "t2" 3600).2.1
      (by norm_num [rsStale, envTokOk]) |>.2 rfl (by rfl) (by rfl)
  · exact (c4_ensure_token ⟨"id", "secret", 1, 1⟩ envTokOk rsNoTok Json.null "" 0).2.2
      rfl rfl (by norm_num [envTokOk])

/-- C7: a 403 from the token exchange raises an Auth classified error
carrying status 403 and the raw body, after exactly one request to the
token endpoint (the exchange is never retried inside the operation), and
this error propagates out of api_call when the exchange is triggered by
the pre-call token check, with no call attempt made. -/
theorem c7_token_exchange_403 (cfg : ConnConfig) (env : Env) (rs : RunSt)
    (st0 : ConnState) (b : Json) :
    (env.tokenResp rs.tCount = HttpResult.ok ⟨403, b⟩ →
      refreshStep cfg env rs =
        ({ rs with
           tCount := rs.tCount + 1
           trace := rs.trace ++
             [Event.tokenReq cfg.clientId cfg.clientSecret "client_credentials"] },
         some (Exc.authError "Invalid client credentials" (some 403) (some b)))) ∧
    (st0.tokenExpiresAt - 300 < env.now → env.tokenResp 0 = HttpResult.ok ⟨403, b⟩ →
      apiCall cfg env st0 =
        ({ conn := st0, tCount := 1, mCount := 0,
           trace := [Event.tokenReq cfg.clientId cfg.clientSecret "client_credentials"] },
         Except.error (Exc.authError "Invalid client credentials" (some 403) (some b)))) := by
  constructor
  · intro h
    simp [refreshStep, h]
  · intro h1 h2
    simp [apiCall, ensureTokenStep, h1, refreshStep, h2]

/-- Witness for C7: with an expired token and a 403-answering token
endpoint, api_call raises the Auth error after one exchange and no call
attempt. -/
theorem c7_token_exchange_403_witness :
    apiCall ⟨"id", "secret", 1, 1⟩ envTok403 ⟨none, 0⟩ =
      ({ conn := ⟨none, 0⟩, tCount := 1, mCount := 0,
         trace := [Event.tokenReq "id" "secret" "client_credentials"] },
       Except.error (Exc.authError "Invalid client credentials" (some 403)
         (some (Json.obj [("error", Json.str "access_denied")])))) :=
  (c7_token_exchange_403 ⟨"id", "secret", 1, 1⟩ envTok403 rsFresh ⟨none, 0⟩
    (Json.obj [("error", Json.str "access_denied")])).2 (by norm_num [envTok403]) rfl

/-- C8: a transport-level failure raises a Network classified error whose
message is the underlying cause's message (hence contains it); the retry
loop propagates it immediately from any attempt with no further attempt,
and an api_call whose first attempt hits a transport failure performs
exactly one attempt regardless of the retry budget. -/
theorem c8_network_not_retried (cfg : ConnConfig) (env : Env) (fuel attempt : Nat)
    (lastError : Option Exc) (rs : RunSt) (st0 : ConnState) (m : String) :
    (env.mainResp rs.mCount = HttpResult.exn m →
      apiLoop cfg env (fuel + 1) attempt lastError rs =
        ({ rs with
           mCount := rs.mCount + 1
           trace := rs.trace ++ [Event.mainReq rs.conn.accessToken] },
         Except.error (Exc.networkError m (some m)))) ∧
    (¬(st0.tokenExpiresAt - 300 < env.now) → env.mainResp 0 = HttpResult.exn m →
      apiCall cfg env st0 =
        ({ conn := st0, tCount := 0, mCount := 1, trace := [Event.mainReq st0.accessToken] },
         Except.error (Exc.networkError m (some m)))) ∧
    (∃ pre suf : String, m = pre ++ m ++ suf) := by
  refine ⟨?_, ?_, ⟨"", "", by simp⟩⟩
  · intro h
    simp [apiLoop, executeStep, classify, h, recordMain]
  · intro h1 h2
    simp [apiCall, ensureTokenStep, h1, apiLoop, executeStep, classify, h2, recordMain]

/-- Witness for C8: with retries = 0 and a connection failure, api_call
raises a Network error wrapping the cause after exactly one attempt. -/
theorem c8_network_not_retried_witness :
    apiCall ⟨"id", "secret", 0, 1⟩ envNetFail rsFresh.conn =
      ({ conn := rsFresh.conn, tCount := 0, mCount := 1,
         trace := [Event.mainReq (some "tok")] },
       Except.error (Exc.networkError "Connection refused" (some "Connection refused"))) :=
  (c8_network_not_retried ⟨"id", "secret", 0, 1⟩ envNetFail 0 0 none rsFresh
    rsFresh.conn "Connection refused").2.1 (by norm_num [rsFresh, envNetFail]) rfl

/-- C9: has_next is true iff the next-page token is present and a
non-empty string; in particular the empty paged response with a null
token reports no next page. -/
theorem c9_has_next {α : Type} (items : List α) (tok : Option String) :
    (PagedResponse.has_next ⟨items, tok⟩ = true ↔ ∃ s, tok = some s ∧ s ≠ "") ∧
    PagedResponse.has_next (⟨[], none⟩ : PagedResponse α) = false := by
  constructor
  · cases tok with
    | none => simp [PagedResponse.has_next]
    | some s => simp [PagedResponse.has_next]
  · rfl

/-- Sleep values distribute over trace concatenation. -/
theorem sleepSeconds_append (t1 t2 : List Event) :
    sleepSeconds (t1 ++ t2) = sleepSeconds t1 ++ sleepSeconds t2 := by
  induction t1 with
  | nil => rfl
  | cons ev t ih => cases ev <;> simp [sleepSeconds, ih]

/-- Token refresh leaves the attempt counter unchanged. -/
theorem refreshStep_mCount (cfg : ConnConfig) (env : Env) (rs : RunSt) :
    (refreshStep cfg env rs).1.mCount = rs.mCount := by
  simp only [refreshStep]
  split
  · rfl
  · split
    · rfl
    · split
      · rfl
      · split <;> rfl

/-- Token refresh appends exactly one token request to the trace. -/
theorem refreshStep_trace (cfg : ConnConfig) (env : Env) (rs : RunSt) :
    (refreshStep cfg env rs).1.trace =
      rs.trace ++ [Event.tokenReq cfg.clientId cfg.clientSecret "client_credentials"] := by
  simp only [refreshStep]
  split
  · rfl
  · split
    · rfl
    · split
      · rfl
      · split <;> rfl

/-- Token refresh on a well-formed 200 exchange response stores the new
token and its expiry. -/
theorem refreshStep_success (cfg : ConnConfig) (env : Env) (rs : RunSt)
    (tb : Json) (tok : String) (expIn : Int)
    (ht : env.tokenResp rs.tCount = HttpResult.ok ⟨200, tb⟩)
    (hta : tb.get "access_token" = some (Json.str tok))
    (hte : tb.get "expires_in" = some (Json.num expIn)) :
    refreshStep cfg env rs =
      ({ conn := ⟨some tok, env.now + expIn⟩
         tCount := rs.tCount + 1
         mCount := rs.mCount
         trace := rs.trace ++
           [Event.tokenReq cfg.clientId cfg.clientSecret "client_credentials"] },
       none) := by
  simp [refreshStep, ht, hta, hte]

/-- The pre-call token check sends no call-path request and never sleeps. -/
theorem ensureTokenStep_shape (cfg : ConnConfig) (env : Env) (rs : RunSt) :
    (ensureTokenStep cfg env rs).1.mCount = rs.mCount ∧
    sleepSeconds (ensureTokenStep cfg env rs).1.trace = sleepSeconds rs.trace := by
  unfold ensureTokenStep
  split
  · refine ⟨refreshStep_mCount cfg env rs, ?_⟩
    rw [refreshStep_trace, sleepSeconds_append]
    simp [sleepSeconds]
  · exact ⟨rfl, rfl⟩

theorem recordMain_mCount (rs : RunSt) : (recordMain rs).mCount = rs.mCount + 1 := rfl

theorem recordMain_tCount (rs : RunSt) : (recordMain rs).tCount = rs.tCount := rfl

theorem recordMain_conn (rs : RunSt) : (recordMain rs).conn = rs.conn := rfl

theorem recordMain_trace (rs : RunSt) :
    (recordMain rs).trace = rs.trace ++ [Event.mainReq rs.conn.accessToken] := rfl

theorem recordSleep_mCount (rs : RunSt) (d : Int) : (recordSleep rs d).mCount = rs.mCount := rfl

theorem recordSleep_tCount (rs : RunSt) (d : Int) : (recordSleep rs d).tCount = rs.tCount := rfl

theorem recordSleep_trace (rs : RunSt) (d : Int) :
    (recordSleep rs d).trace = rs.trace ++ [Event.sleep d] := rfl

theorem sleepSeconds_recordMain (rs : RunSt) :
    sleepSeconds (recordMain rs).trace = sleepSeconds rs.trace := by
  rw [recordMain_trace, sleepSeconds_append]
  simp [sleepSeconds]

theorem sleepSeconds_recordSleep (rs : RunSt) (d : Int) :
    sleepSeconds (recordSleep rs d).trace = sleepSeconds rs.trace ++ [d] := by
  rw [recordSleep_trace, sleepSeconds_append]
  rfl

/-- One unfolding of the retry loop, by cases on the classified outcome
of the next attempt. -/
theorem apiLoop_succ (cfg : ConnConfig) (env : Env) (fuel attempt : Nat)
    (lastError : Option Exc) (rs : RunSt) :
    apiLoop cfg env (fuel + 1) attempt lastError rs =
      match classify (env.mainResp rs.mCount) with
      | Except.ok v => (recordMain rs, Except.ok v)
      | Except.error (Exc.serverError m st b) =>
        apiLoop cfg env fuel (attempt + 1) (some (Exc.serverError m st b))
          (if attempt < cfg.retries then
            recordSleep (recordMain rs) (cfg.retryBackoff * 2 ^ attempt)
           else recordMain rs)
      | Except.error (Exc.authError m st b) =>
        (match refreshStep cfg env (recordMain rs) with
         | (rs2, some e2) => (rs2, Except.error e2)
         | (rs2, none) => executeStep env rs2)
      | Except.error e => (recordMain rs, Except.error e) := by
  simp only [apiLoop, executeStep]
  rcases hc : classify (env.mainResp rs.mCount) with e | v
  · cases e <;> rfl
  · rfl

theorem apiLoop_step_ok (cfg : ConnConfig) (env : Env) (fuel attempt : Nat)
    (lastError : Option Exc) (rs : RunSt) (v : Json)
    (hc : classify (env.mainResp rs.mCount) = Except.ok v) :
    apiLoop cfg env (fuel + 1) attempt lastError rs = (recordMain rs, Except.ok v) := by
  rw [apiLoop_succ, hc]

theorem apiLoop_step_server (cfg : ConnConfig) (env : Env) (fuel attempt : Nat)
    (lastError : Option Exc) (rs : RunSt) (m : String) (st : Option Nat) (b : Option Json)
    (hc : classify (env.mainResp rs.mCount) = Except.error (Exc.serverError m st b)) :
    apiLoop cfg env (fuel + 1) attempt lastError rs =
      apiLoop cfg env fuel (attempt + 1) (some (Exc.serverError m st b))
        (if attempt < cfg.retries then
          recordSleep (recordMain rs) (cfg.retryBackoff * 2 ^ attempt)
         else recordMain rs) := by
  rw [apiLoop_succ, hc]

theorem apiLoop_step_auth (cfg : ConnConfig) (env : Env) (fuel attempt : Nat)
    (lastError : Option Exc) (rs : RunSt) (m : String) (st : Option Nat) (b : Option Json)
    (hc : classify (env.mainResp rs.mCount) = Except.error (Exc.authError m st b)) :
    apiLoop cfg env (fuel + 1) attempt lastError rs =
      (match refreshStep cfg env (recordMain rs) with
       | (rs2, some e2) => (rs2, Except.error e2)
       | (rs2, none) => executeStep env rs2) := by
  rw [apiLoop_succ, hc]

theorem apiLoop_step_other (cfg : ConnConfig) (env : Env) (fuel attempt : Nat)
    (lastError : Option Exc) (rs : RunSt) (e : Exc)
    (hc : classify (env.mainResp rs.mCount) = Except.error e)
    (hna : e.isAuth = false) (hns : ∀ m st b, e ≠ Exc.serverError m st b) :
    apiLoop cfg env (fuel + 1) attempt lastError rs = (recordMain rs, Except.error e) := by
  rw [apiLoop_succ, hc]
  cases e with
  | authError m st b => simp [Exc.isAuth] at hna
  | serverError m st b => exact absurd rfl (hns m st b)
  | validationError m st b => rfl
  | notFoundError m st b => rfl
  | networkError m c => rfl
  | httpxError m => rfl
  | keyError k => rfl
  | runtimeError m => rfl
  | typeError m => rfl

/-- The attempt counter never decreases along the retry loop. -/
theorem apiLoop_mono (cfg : ConnConfig) (env : Env) :
    ∀ (fuel attempt : Nat) (lastError : Option Exc) (rs : RunSt),
      rs.mCount ≤ (apiLoop cfg env fuel attempt lastError rs).1.mCount := by
  intro fuel
  induction fuel with
  | zero =>
    intro attempt lastError rs
    cases lastError <;> simp [apiLoop]
  | succ n ih =>
    intro attempt lastError rs
    rcases hc : classify (env.mainResp rs.mCount) with e | v
    · cases e with
      | serverError m st b =>
        rw [apiLoop_step_server cfg env n attempt lastError rs m st b hc]
        refine le_trans ?_ (ih (attempt + 1) (some (Exc.serverError m st b)) _)
        split
        · show rs.mCount ≤ rs.mCount + 1
          omega
        · show rs.mCount ≤ rs.mCount + 1
          omega
      | authError m st b =>
        rw [apiLoop_step_auth cfg env n attempt lastError rs m st b hc]
        rcases hr : refreshStep cfg env (recordMain rs) with ⟨rs2, oe⟩
        have hm2 : rs2.mCount = rs.mCount + 1 := by
          have h := refreshStep_mCount cfg env (recordMain rs)
          rw [hr, recordMain_mCount] at h
          exact h
        cases oe with
        | some e2 =>
          show rs.mCount ≤ rs2.mCount
          omega
        | none =>
          show rs.mCount ≤ rs2.mCount + 1
          omega
      | validationError m st b =>
        rw [apiLoop_step_other cfg env n attempt lastError rs _ hc rfl
          (fun _ _ _ h => Exc.noConfusion h)]
        show rs.mCount ≤ rs.mCount + 1
        omega
      | notFoundError m st b =>
        rw [apiLoop_step_other cfg env n attempt lastError rs _ hc rfl
          (fun _ _ _ h => Exc.noConfusion h)]
        show rs.mCount ≤ rs.mCount + 1
        omega
      | networkError m c =>
        rw [apiLoop_step_other cfg env n attempt lastError rs _ hc rfl
          (fun _ _ _ h => Exc.noConfusion h)]
        show rs.mCount ≤ rs.mCount + 1
        omega
      | httpxError m =>
        rw [apiLoop_step_other cfg env n attempt lastError rs _ hc rfl
          (fun _ _ _ h => Exc.noConfusion h)]
        show rs.mCount ≤ rs.mCount + 1
        omega
      | keyError k =>
        rw [apiLoop_step_other cfg env n attempt lastError rs _ hc rfl
          (fun _ _ _ h => Exc.noConfusion h)]
        show rs.mCount ≤ rs.mCount + 1
        omega
      | runtimeError m =>
        rw [apiLoop_step_other cfg env n attempt lastError rs _ hc rfl
          (fun _ _ _ h => Exc.noConfusion h)]
        show rs.mCount ≤ rs.mCount + 1
        omega
      | typeError m =>
        rw [apiLoop_step_other cfg env n attempt lastError rs _ hc rfl
          (fun _ _ _ h => Exc.noConfusion h)]
        show rs.mCount ≤ rs.mCount + 1
        omega
    · rw [apiLoop_step_ok cfg env n attempt lastError rs v hc]
      show rs.mCount ≤ rs.mCount + 1
      omega

/-- With at least one unit of fuel the retry loop performs at least one
attempt. -/
theorem apiLoop_lower (cfg : ConnConfig) (env : Env)
    (fuel attempt : Nat) (lastError : Option Exc) (rs : RunSt) (hf : 1 ≤ fuel) :
    rs.mCount + 1 ≤ (apiLoop cfg env fuel attempt lastError rs).1.mCount := by
  rcases fuel with _ | n
  · omega
  · rcases hc : classify (env.mainResp rs.mCount) with e | v
    · cases e with
      | serverError m st b =>
        rw [apiLoop_step_server cfg env n attempt lastError rs m st b hc]
        refine le_trans ?_ (apiLoop_mono cfg env n (attempt + 1)
          (some (Exc.serverError m st b)) _)
        split
        · show rs.mCount + 1 ≤ rs.mCount + 1
          omega
        · show rs.mCount + 1 ≤ rs.mCount + 1
          omega
      | authError m st b =>
        rw [apiLoop_step_auth cfg env n attempt lastError rs m st b hc]
        rcases hr : refreshStep cfg env (recordMain rs) with ⟨rs2, oe⟩
        have hm2 : rs2.mCount = rs.mCount + 1 := by
          have h := refreshStep_mCount cfg env (recordMain rs)
          rw [hr, recordMain_mCount] at h
          exact h
        cases oe with
        | some e2 =>
          show rs.mCount + 1 ≤ rs2.mCount
          omega
        | none =>
          show rs.mCount + 1 ≤ rs2.mCount + 1
          omega
      | validationError m st b =>
        rw [apiLoop_step_other cfg env n attempt lastError rs _ hc rfl
          (fun _ _ _ h => Exc.noConfusion h)]
        show rs.mCount + 1 ≤ rs.mCount + 1
        omega
      | notFoundError m st b =>
        rw [apiLoop_step_other cfg env n attempt lastError rs _ hc rfl
          (fun _ _ _ h => Exc.noConfusion h)]
        show rs.mCount + 1 ≤ rs.mCount + 1
        omega
      | networkError m c =>
        rw [apiLoop_step_other cfg env n attempt lastError rs _ hc rfl
          (fun _ _ _ h => Exc.noConfusion h)]
        show rs.mCount + 1 ≤ rs.mCount + 1
        omega
      | httpxError m =>
        rw [apiLoop_step_other cfg env n attempt lastError rs _ hc rfl
          (fun _ _ _ h => Exc.noConfusion h)]
        show rs.mCount + 1 ≤ rs.mCount + 1
        omega
      | keyError k =>
        rw [apiLoop_step_other cfg env n attempt lastError rs _ hc rfl
          (fun _ _ _ h => Exc.noConfusion h)]
        show rs.mCount + 1 ≤ rs.mCount + 1
        omega
      | runtimeError m =>
        rw [apiLoop_step_other cfg env n attempt lastError rs _ hc rfl
          (fun _ _ _ h => Exc.noConfusion h)]
        show rs.mCount + 1 ≤ rs.mCount + 1
        omega
      | typeError m =>
        rw [apiLoop_step_other cfg env n attempt lastError rs _ hc rfl
          (fun _ _ _ h => Exc.noConfusion h)]
        show rs.mCount + 1 ≤ rs.mCount + 1
        omega
    · rw [apiLoop_step_ok cfg env n attempt lastError rs v hc]
      show rs.mCount + 1 ≤ rs.mCount + 1
      omega

/-- Trichotomy on a classified error: Server, Auth, or neither. -/
theorem classify_cases (e : Exc) :
    (∃ m st b, e = Exc.serverError m st b) ∨ (∃ m st b, e = Exc.authError m st b) ∨
    (e.isAuth = false ∧ ∀ m st b, e ≠ Exc.serverError m st b) := by
  cases e <;> simp [Exc.isAuth]

/-- Under a 401-free call-path oracle the retry loop adds at most `fuel`
attempts. -/
theorem apiLoop_bound (cfg : ConnConfig) (env : Env)
    (H : ∀ i, isAuthResult (env.mainResp i) = false) :
    ∀ (fuel attempt : Nat) (lastError : Option Exc) (rs : RunSt),
      (apiLoop cfg env fuel attempt lastError rs).1.mCount ≤ rs.mCount + fuel := by
  intro fuel
  induction fuel with
  | zero =>
    intro attempt lastError rs
    cases lastError <;> simp [apiLoop]
  | succ n ih =>
    intro attempt lastError rs
    rcases hc : classify (env.mainResp rs.mCount) with e | v
    · rcases classify_cases e with ⟨m, st, b, rfl⟩ | ⟨m, st, b, rfl⟩ | ⟨hna, hns⟩
      · rw [apiLoop_step_server cfg env n attempt lastError rs m st b hc]
        refine le_trans (ih (attempt + 1) (some (Exc.serverError m st b)) _) ?_
        split
        · show rs.mCount + 1 + n ≤ rs.mCount + (n + 1)
          omega
        · show rs.mCount + 1 + n ≤ rs.mCount + (n + 1)
          omega
      · have hres := classify_auth _ _ hc rfl
        simp [H rs.mCount] at hres
      · rw [apiLoop_step_other cfg env n attempt lastError rs e hc hna hns]
        show rs.mCount + 1 ≤ rs.mCount + (n + 1)
        omega
    · rw [apiLoop_step_ok cfg env n attempt lastError rs v hc]
      show rs.mCount + 1 ≤ rs.mCount + (n + 1)
      omega

/-- Under a 401-free call-path oracle, every response consumed before the
final one was a 5xx: a further attempt happens only after a Server
failure. -/
theorem apiLoop_server_only (cfg : ConnConfig) (env : Env)
    (H : ∀ i, isAuthResult (env.mainResp i) = false) :
    ∀ (fuel attempt : Nat) (lastError : Option Exc) (rs : RunSt) (j : Nat),
      rs.mCount ≤ j → j + 1 < (apiLoop cfg env fuel attempt lastError rs).1.mCount →
      isServer5xx (env.mainResp j) = true := by
  intro fuel
  induction fuel with
  | zero =>
    intro attempt lastError rs j hj hlt
    cases lastError <;> simp [apiLoop] at hlt <;> omega
  | succ n ih =>
    intro attempt lastError rs j hj hlt
    rcases hc : classify (env.mainResp rs.mCount) with e | v
    · rcases classify_cases e with ⟨m, st, b, rfl⟩ | ⟨m, st, b, rfl⟩ | ⟨hna, hns⟩
      · rw [apiLoop_step_server cfg env n attempt lastError rs m st b hc] at hlt
        rcases Nat.eq_or_lt_of_le hj with hj2 | hj2
        · rw [hj2] at hc
          exact classify_server_inv _ _ _ _ hc
        · refine ih (attempt + 1) (some (Exc.serverError m st b)) _ j ?_ hlt
          split
          · show rs.mCount + 1 ≤ j
            omega
          · show rs.mCount + 1 ≤ j
            omega
      · have hres := classify_auth _ _ hc rfl
        simp [H rs.mCount] at hres
      · rw [apiLoop_step_other cfg env n attempt lastError rs e hc hna hns] at hlt
        have hlt2 : j + 1 < rs.mCount + 1 := hlt
        omega
    · rw [apiLoop_step_ok cfg env n attempt lastError rs v hc] at hlt
      have hlt2 : j + 1 < rs.mCount + 1 := hlt
      omega

/-- Under a 401-free call-path oracle the sleeps of a loop run are the
exponential backoffs, one per non-final attempt, starting at the entry
attempt index (loop invariant: attempt + fuel = retries + 1). -/
theorem apiLoop_sleeps (cfg : ConnConfig) (env : Env)
    (H : ∀ i, isAuthResult (env.mainResp i) = false) :
    ∀ (fuel attempt : Nat) (lastError : Option Exc) (rs : RunSt),
      attempt + fuel = cfg.retries + 1 →
      sleepSeconds (apiLoop cfg env fuel attempt lastError rs).1.trace =
        sleepSeconds rs.trace ++
          expectedSleeps cfg.retryBackoff attempt
            ((apiLoop cfg env fuel attempt lastError rs).1.mCount - rs.mCount - 1) := by
  intro fuel
  induction fuel with
  | zero =>
    intro attempt lastError rs hinv
    cases lastError <;> simp [apiLoop, expectedSleeps]
  | succ n ih =>
    intro attempt lastError rs hinv
    rcases hc : classify (env.mainResp rs.mCount) with e | v
    · rcases classify_cases e with ⟨m, st, b, rfl⟩ | ⟨m, st, b, rfl⟩ | ⟨hna, hns⟩
      · rw [apiLoop_step_server cfg env n attempt lastError rs m st b hc]
        by_cases hlt : attempt < cfg.retries
        · rw [if_pos hlt]
          have hn : 1 ≤ n := by omega
          have ihX := ih (attempt + 1) (some (Exc.serverError m st b))
            (recordSleep (recordMain rs) (cfg.retryBackoff * 2 ^ attempt)) (by omega)
          have hXm : (recordSleep (recordMain rs)
              (cfg.retryBackoff * 2 ^ attempt)).mCount = rs.mCount + 1 := rfl
          have hlow := apiLoop_lower cfg env n (attempt + 1)
            (some (Exc.serverError m st b))
            (recordSleep (recordMain rs) (cfg.retryBackoff * 2 ^ attempt)) hn
          rw [hXm] at hlow
          rw [sleepSeconds_recordSleep, sleepSeconds_recordMain, hXm] at ihX
          rw [ihX]
          have e1 : (apiLoop cfg env n (attempt + 1) (some (Exc.serverError m st b))
                (recordSleep (recordMain rs) (cfg.retryBackoff * 2 ^ attempt))).1.mCount
                - rs.mCount - 1
              = ((apiLoop cfg env n (attempt + 1) (some (Exc.serverError m st b))
                (recordSleep (recordMain rs) (cfg.retryBackoff * 2 ^ attempt))).1.mCount
                - (rs.mCount + 1) - 1) + 1 := by omega
          rw [e1]
          simp [expectedSleeps]
        · rw [if_neg hlt]
          have hn : n = 0 := by omega
          subst hn
          show sleepSeconds (recordMain rs).trace =
            sleepSeconds rs.trace ++
              expectedSleeps cfg.retryBackoff attempt ((recordMain rs).mCount - rs.mCount - 1)
          rw [sleepSeconds_recordMain, recordMain_mCount]
          have hk : rs.mCount + 1 - rs.mCount - 1 = 0 := by omega
          rw [hk]
          simp [expectedSleeps]
      · have hres := classify_auth _ _ hc rfl
        simp [H rs.mCount] at hres
      · rw [apiLoop_step_other cfg env n attempt lastError rs e hc hna hns]
        show sleepSeconds (recordMain rs).trace =
          sleepSeconds rs.trace ++
            expectedSleeps cfg.retryBackoff attempt ((recordMain rs).mCount - rs.mCount - 1)
        rw [sleepSeconds_recordMain, recordMain_mCount]
        have hk : rs.mCount + 1 - rs.mCount - 1 = 0 := by omega
        rw [hk]
        simp [expectedSleeps]
    · rw [apiLoop_step_ok cfg env n attempt lastError rs v hc]
      show sleepSeconds (recordMain rs).trace =
        sleepSeconds rs.trace ++
          expectedSleeps cfg.retryBackoff attempt ((recordMain rs).mCount - rs.mCount - 1)
      rw [sleepSeconds_recordMain, recordMain_mCount]
      have hk : rs.mCount + 1 - rs.mCount - 1 = 0 := by omega
      rw [hk]
      simp [expectedSleeps]

/-- When every call-path response is a 5xx, the loop consumes all its fuel
and raises the classification of the last response consumed. -/
theorem apiLoop_exhaust (cfg : ConnConfig) (env : Env)
    (HS : ∀ i, isServer5xx (env.mainResp i) = true) :
    ∀ (fuel attempt : Nat) (lastError : Option Exc) (rs : RunSt), 1 ≤ fuel →
      (apiLoop cfg env fuel attempt lastError rs).2 =
        classify (env.mainResp (rs.mCount + fuel - 1)) ∧
      (apiLoop cfg env fuel attempt lastError rs).1.mCount = rs.mCount + fuel := by
  intro fuel
  induction fuel with
  | zero =>
    intro attempt lastError rs h
    omega
  | succ n ih =>
    intro attempt lastError rs _
    have hsv := HS rs.mCount
    rcases hresp : env.mainResp rs.mCount with resp | msg
    · rw [hresp] at hsv
      simp only [isServer5xx, decide_eq_true_eq] at hsv
      have hc : classify (env.mainResp rs.mCount) =
          Except.error (Exc.serverError "Server error" (some resp.status) (some resp.body)) := by
        rw [hresp]
        exact classify_server resp hsv
      rw [apiLoop_step_server cfg env n attempt lastError rs _ _ _ hc]
      rcases n with _ | n2
      · constructor
        · have hix : rs.mCount + 1 - 1 = rs.mCount := by omega
          rw [hix, hc]
          split <;> simp [apiLoop]
        · split <;> simp [apiLoop, recordSleep_mCount, recordMain_mCount]
      · have hXm : (if attempt < cfg.retries then
              recordSleep (recordMain rs) (cfg.retryBackoff * 2 ^ attempt)
            else recordMain rs).mCount = rs.mCount + 1 := by
          split <;> rfl
        have ihX := ih (attempt + 1)
          (some (Exc.serverError "Server error" (some resp.status) (some resp.body)))
          (if attempt < cfg.retries then
            recordSleep (recordMain rs) (cfg.retryBackoff * 2 ^ attempt)
           else recordMain rs) (by omega)
        rw [hXm] at ihX
        constructor
        · rw [show rs.mCount + (n2 + 1 + 1) - 1 = rs.mCount + 1 + (n2 + 1) - 1 from by omega]
          exact ihX.1
        · rw [ihX.2]
          omega
    · rw [hresp] at hsv
      simp [isServer5xx] at hsv

/-- An unclassified (raw) outcome of the retry loop implies a token
exchange happened inside the loop (only the refresh raises raw). -/
theorem apiLoop_raw (cfg : ConnConfig) (env : Env) :
    ∀ (fuel attempt : Nat) (lastError : Option Exc) (rs : RunSt),
      (∀ e0, lastError = some e0 → e0.isClassified = true) →
      (lastError = none → 1 ≤ fuel) →
      ∀ e, (apiLoop cfg env fuel attempt lastError rs).2 = Except.error e →
        e.isClassified = false →
        rs.tCount + 1 ≤ (apiLoop cfg env fuel attempt lastError rs).1.tCount := by
  intro fuel
  induction fuel with
  | zero =>
    intro attempt lastError rs hlast hfuel e hres hecl
    cases lastError with
    | none => exact absurd (hfuel rfl) (by omega)
    | some e0 =>
      simp [apiLoop] at hres
      rw [← hres] at hecl
      rw [hlast e0 rfl] at hecl
      exact absurd hecl (by simp)
  | succ n ih =>
    intro attempt lastError rs hlast hfuel e hres hecl
    rcases hc : classify (env.mainResp rs.mCount) with e1 | v
    · rcases classify_cases e1 with ⟨m, st, b, rfl⟩ | ⟨m, st, b, rfl⟩ | ⟨hna, hns⟩
      · rw [apiLoop_step_server cfg env n attempt lastError rs m st b hc] at hres ⊢
        have hXt : (if attempt < cfg.retries then
              recordSleep (recordMain rs) (cfg.retryBackoff * 2 ^ attempt)
            else recordMain rs).tCount = rs.tCount := by
          split <;> rfl
        have hrec := ih (attempt + 1) (some (Exc.serverError m st b))
          (if attempt < cfg.retries then
            recordSleep (recordMain rs) (cfg.retryBackoff * 2 ^ attempt)
           else recordMain rs)
          (fun e0 h => by rw [← Option.some.inj h]; rfl)
          (fun h => absurd h (by simp)) e hres hecl
        omega
      · rw [apiLoop_step_auth cfg env n attempt lastError rs m st b hc] at hres ⊢
        rcases hr : refreshStep cfg env (recordMain rs) with ⟨rs2, oe⟩
        have ht2 : rs2.tCount = rs.tCount + 1 := by
          have h := refreshStep_tCount cfg env (recordMain rs)
          rw [hr, recordMain_tCount] at h
          exact h
        cases oe with
        | some e2 =>
          show rs.tCount + 1 ≤ rs2.tCount
          omega
        | none =>
          show rs.tCount + 1 ≤ rs2.tCount
          omega
      · rw [apiLoop_step_other cfg env n attempt lastError rs e1 hc hna hns] at hres
        have hres2 : Except.error e1 = Except.error e := hres
        rw [Except.error.injEq] at hres2
        rw [← hres2] at hecl
        rw [classify_classified _ _ hc] at hecl
        exact absurd hecl (by simp)
    · rw [apiLoop_step_ok cfg env n attempt lastError rs v hc] at hres
      have hres2 : Except.ok v = Except.error e := hres
      exact absurd hres2 (by simp)

/-- C2: when an attempt of a call fails classified Auth (HTTP 401,
invalid or expired token), the core performs exactly one unconditional
token refresh followed by exactly one retry of the same request,
regardless of the remaining retry budget (any fuel, any attempt index);
if that retry also fails classified Auth, the Auth error carrying the
retry's 401 body propagates and no further attempts or refreshes occur.
The second conjunct instantiates this for a whole api_call holding a
fresh token: exactly two attempts and one refresh, then the Auth error. -/
theorem c2_auth_recovery (cfg : ConnConfig) (env : Env) (fuel attempt : Nat)
    (lastError : Option Exc) (rs : RunSt) (st0 : ConnState)
    (b1 b2 tb : Json) (tok : String) (expIn : Int) :
    (env.mainResp rs.mCount = HttpResult.ok ⟨401, b1⟩ →
     env.tokenResp rs.tCount = HttpResult.ok ⟨200, tb⟩ →
     tb.get "access_token" = some (Json.str tok) →
     tb.get "expires_in" = some (Json.num expIn) →
     env.mainResp (rs.mCount + 1) = HttpResult.ok ⟨401, b2⟩ →
      apiLoop cfg env (fuel + 1) attempt lastError rs =
        ({ conn := ⟨some tok, env.now + expIn⟩
           tCount := rs.tCount + 1
           mCount := rs.mCount + 2
           trace := rs.trace ++
             [Event.mainReq rs.conn.accessToken,
              Event.tokenReq cfg.clientId cfg.clientSecret "client_credentials",
              Event.mainReq (some tok)] },
         Except.error (Exc.authError "Invalid or expired token" (some 401) (some b2)))) ∧
    (¬(st0.tokenExpiresAt - 300 < env.now) →
     env.mainResp 0 = HttpResult.ok ⟨401, b1⟩ →
     env.tokenResp 0 = HttpResult.ok ⟨200, tb⟩ →
     tb.get "access_token" = some (Json.str tok) →
     tb.get "expires_in" = some (Json.num expIn) →
     env.mainResp 1 = HttpResult.ok ⟨401, b2⟩ →
      apiCall cfg env st0 =
        ({ conn := ⟨some tok, env.now + expIn⟩
           tCount := 1
           mCount := 2
           trace := [Event.mainReq st0.accessToken,
                     Event.tokenReq cfg.clientId cfg.clientSecret "client_credentials",
                     Event.mainReq (some tok)] },
         Except.error (Exc.authError "Invalid or expired token" (some 401) (some b2)))) := by
  have key : ∀ (fuel2 attempt2 : Nat) (lastError2 : Option Exc) (rs2 : RunSt),
      env.mainResp rs2.mCount = HttpResult.ok ⟨401, b1⟩ →
      env.tokenResp rs2.tCount = HttpResult.ok ⟨200, tb⟩ →
      tb.get "access_token" = some (Json.str tok) →
      tb.get "expires_in" = some (Json.num expIn) →
      env.mainResp (rs2.mCount + 1) = HttpResult.ok ⟨401, b2⟩ →
      apiLoop cfg env (fuel2 + 1) attempt2 lastError2 rs2 =
        ({ conn := ⟨some tok, env.now + expIn⟩
           tCount := rs2.tCount + 1
           mCount := rs2.mCount + 2
           trace := rs2.trace ++
             [Event.mainReq rs2.conn.accessToken,
              Event.tokenReq cfg.clientId cfg.clientSecret "client_credentials",
              Event.mainReq (some tok)] },
         Except.error (Exc.authError "Invalid or expired token" (some 401) (some b2))) := by
    intro fuel2 attempt2 lastError2 rs2 h1 ht hta hte h2
    have hc1 : classify (env.mainResp rs2.mCount) =
        Except.error (Exc.authError "Invalid or expired token" (some 401) (some b1)) := by
      rw [h1]
      rfl
    rw [apiLoop_step_auth cfg env fuel2 attempt2 lastError2 rs2 _ _ _ hc1]
    rw [refreshStep_success cfg env (recordMain rs2) tb tok expIn
      (by rw [recordMain_tCount]; exact ht) hta hte]
    have hc2 : classify (env.mainResp (rs2.mCount + 1)) =
        Except.error (Exc.authError "Invalid or expired token" (some 401) (some b2)) := by
      rw [h2]
      rfl
    simp [executeStep, recordMain, hc2]
  constructor
  · exact key fuel attempt lastError rs
  · intro hfresh h1 ht hta hte h2
    have h0 : apiCall cfg env st0 =
        apiLoop cfg env (cfg.retries + 1) 0 none ⟨st0, 0, 0, []⟩ := by
      simp [apiCall, ensureTokenStep, hfresh]
    rw [h0, key cfg.retries 0 none ⟨st0, 0, 0, []⟩ h1 ht hta hte h2]
    simp

/-- Witness for C2: a call answered 401 twice, with a working token
endpoint and budget retries = 5, performs exactly two attempts and one
recovery refresh, then raises the Auth error of the second 401. -/
theorem c2_auth_recovery_witness :
    apiCall ⟨"id", "secret", 5, 1⟩ envAuthAuth ⟨some "tok", 1000000⟩ =
      ({ conn := ⟨some "t2", envAuthAuth.now + 3600⟩
         tCount := 1
         mCount := 2
         trace := [Event.mainReq (some "tok"),
                   Event.tokenReq "id" "secret" "client_credentials",
                   Event.mainReq (some "t2")] },
       Except.error (Exc.authError "Invalid or expired token" (some 401)
         (some (Json.obj [("error", Json.str "still invalid")])))) :=
  (c2_auth_recovery ⟨"id", "secret", 5, 1⟩ envAuthAuth 5 0 none rsFresh
    ⟨some "tok", 1000000⟩
    (Json.obj [("error", Json.str "invalid token")])
    (Json.obj [("error", Json.str "still invalid")])
    (Json.obj [("access_token", Json.str "t2"), ("expires_in", Json.num 3600),
               ("token_type", Json.str "Bearer")]) "t2" 3600).2
    (by norm_num [envAuthAuth, envTokOk]) rfl rfl rfl rfl rfl

/-- C10: if the auth-recovery retry performed after a 401 fails with a
classified error other than Auth (for example Server, Validation, or
Network), that error propagates to the caller immediately: no backoff
sleep is applied, no further token refresh occurs, and no further attempt
is made, regardless of the remaining Server-retry budget. -/
theorem c10_auth_retry_error (cfg : ConnConfig) (env : Env) (fuel attempt : Nat)
    (lastError : Option Exc) (rs : RunSt)
    (b1 tb : Json) (tok : String) (expIn : Int) (e : Exc)
    (h1 : env.mainResp rs.mCount = HttpResult.ok ⟨401, b1⟩)
    (ht : env.tokenResp rs.tCount = HttpResult.ok ⟨200, tb⟩)
    (hta : tb.get "access_token" = some (Json.str tok))
    (hte : tb.get "expires_in" = some (Json.num expIn))
    (h2 : classify (env.mainResp (rs.mCount + 1)) = Except.error e)
    (_hne : e.isAuth = false) :
    apiLoop cfg env (fuel + 1) attempt lastError rs =
      ({ conn := ⟨some tok, env.now + expIn⟩
         tCount := rs.tCount + 1
         mCount := rs.mCount + 2
         trace := rs.trace ++
           [Event.mainReq rs.conn.accessToken,
            Event.tokenReq cfg.clientId cfg.clientSecret "client_credentials",
            Event.mainReq (some tok)] },
       Except.error e) := by
  have hc1 : classify (env.mainResp rs.mCount) =
      Except.error (Exc.authError "Invalid or expired token" (some 401) (some b1)) := by
    rw [h1]
    rfl
  rw [apiLoop_step_auth cfg env fuel attempt lastError rs _ _ _ hc1]
  rw [refreshStep_success cfg env (recordMain rs) tb tok expIn
    (by rw [recordMain_tCount]; exact ht) hta hte]
  simp [executeStep, recordMain, h2]

/-- Witness for C10: after a 401 and a successful refresh, a 500 on the
recovery retry propagates as the Server error with no sleep and no
further attempts, despite a budget of retries = 5. -/
theorem c10_auth_retry_error_witness :
    apiLoop ⟨"id", "secret", 5, 1⟩ envAuth500 4 0 none rsFresh =
      ({ conn := ⟨some "t2", envAuth500.now + 3600⟩
         tCount := 1
         mCount := 2
         trace := [Event.mainReq (some "tok"),
                   Event.tokenReq "id" "secret" "client_credentials",
                   Event.mainReq (some "t2")] },
       Except.error (Exc.serverError "Server error" (some 500)
         (some (Json.obj [("error", Json.str "server error")])))) := by
  have h := c10_auth_retry_error ⟨"id", "secret", 5, 1⟩ envAuth500 3 0 none rsFresh
    (Json.obj [("error", Json.str "invalid token")])
    (Json.obj [("access_token", Json.str "t2"), ("expires_in", Json.num 3600),
               ("token_type", Json.str "Bearer")]) "t2" 3600
    (Exc.serverError "Server error" (some 500)
      (some (Json.obj [("error", Json.str "server error")])))
    rfl rfl rfl rfl rfl rfl
  simpa using h

/-- C3 (amended): for every api_call with retry budget R in which no
attempt is answered 401 (the Auth recovery special case of C2 can add one
extra attempt and is excluded), at most R + 1 sequential attempts are
executed; a further attempt is made only after the prior attempt failed
classified Server (status at least 500); the sleeps performed are exactly
retryBackoffSeconds * 2^n between attempt n (0-indexed) and attempt
n + 1; and when every response is a 5xx and the token is fresh, the
budget is exhausted and the last Server error observed is raised after
exactly R + 1 attempts.  The closed conjuncts check the scenarios with
backoff = 1: with retries = 2, two consecutive 500s followed by a 200
succeed after exactly 3 attempts with sleeps 1 and 2; with retries = 1,
two consecutive 500s raise the Server error after exactly 2 attempts. -/
theorem c3_server_retry (cfg : ConnConfig) (env : Env) (st0 : ConnState)
    (H : ∀ i, isAuthResult (env.mainResp i) = false) :
    (apiCall cfg env st0).1.mCount ≤ cfg.retries + 1 ∧
    (∀ j, j + 1 < (apiCall cfg env st0).1.mCount → isServer5xx (env.mainResp j) = true) ∧
    sleepSeconds (apiCall cfg env st0).1.trace =
      expectedSleeps cfg.retryBackoff 0 ((apiCall cfg env st0).1.mCount - 1) ∧
    ((∀ i, isServer5xx (env.mainResp i) = true) → ¬(st0.tokenExpiresAt - 300 < env.now) →
      (apiCall cfg env st0).2 = classify (env.mainResp cfg.retries) ∧
      (apiCall cfg env st0).1.mCount = cfg.retries + 1) ∧
    apiCall ⟨"id", "secret", 2, 1⟩ envTwo500 ⟨some "tok", 1000000⟩ =
      ({ conn := ⟨some "tok", 1000000⟩, tCount := 0, mCount := 3,
         trace := [Event.mainReq (some "tok"), Event.sleep 1,
                   Event.mainReq (some "tok"), Event.sleep 2,
                   Event.mainReq (some "tok")] },
       Except.ok (Json.obj [("result", Json.str "success")])) ∧
    apiCall ⟨"id", "secret", 1, 1⟩ envAll500 ⟨some "tok", 1000000⟩ =
      ({ conn := ⟨some "tok", 1000000⟩, tCount := 0, mCount := 2,
         trace := [Event.mainReq (some "tok"), Event.sleep 1, Event.mainReq (some "tok")] },
       Except.error (Exc.serverError "Server error" (some 500)
         (some (Json.obj [("error", Json.str "server error")])))) := by
  rcases he : ensureTokenStep cfg env ⟨st0, 0, 0, []⟩ with ⟨rs1, oe⟩
  have hm : rs1.mCount = 0 := by
    have h := (ensureTokenStep_shape cfg env ⟨st0, 0, 0, []⟩).1
    rw [he] at h
    exact h
  have hs : sleepSeconds rs1.trace = [] := by
    have h := (ensureTokenStep_shape cfg env ⟨st0, 0, 0, []⟩).2
    rw [he] at h
    exact h
  cases oe with
  | some e =>
    have happ : apiCall cfg env st0 = (rs1, Except.error e) := by
      simp [apiCall, he]
    refine ⟨?_, ?_, ?_, ?_, by decide, by decide⟩
    · rw [happ]
      show rs1.mCount ≤ cfg.retries + 1
      omega
    · intro j hj
      rw [happ] at hj
      have hj2 : j + 1 < rs1.mCount := hj
      exact absurd hj2 (by omega)
    · rw [happ]
      show sleepSeconds rs1.trace =
        expectedSleeps cfg.retryBackoff 0 (rs1.mCount - 1)
      rw [hs, hm]
      rfl
    · intro _HS hfresh
      simp [ensureTokenStep, hfresh] at he
  | none =>
    have happ : apiCall cfg env st0 =
        apiLoop cfg env (cfg.retries + 1) 0 none rs1 := by
      simp [apiCall, he]
    refine ⟨?_, ?_, ?_, ?_, by decide, by decide⟩
    · rw [happ]
      have hb := apiLoop_bound cfg env H (cfg.retries + 1) 0 none rs1
      omega
    · intro j hj
      rw [happ] at hj
      exact apiLoop_server_only cfg env H (cfg.retries + 1) 0 none rs1 j (by omega) hj
    · rw [happ]
      have h := apiLoop_sleeps cfg env H (cfg.retries + 1) 0 none rs1 (by omega)
      rw [h, hs, hm]
      simp
    · intro HS _hfresh
      have hexh := apiLoop_exhaust cfg env HS (cfg.retries + 1) 0 none rs1 (by omega)
      constructor
      · rw [happ]
        show (apiLoop cfg env (cfg.retries + 1) 0 none rs1).2 =
          classify (env.mainResp cfg.retries)
        rw [hexh.1]
        rw [show rs1.mCount + (cfg.retries + 1) - 1 = cfg.retries from by omega]
      · rw [happ]
        show (apiLoop cfg env (cfg.retries + 1) 0 none rs1).1.mCount = cfg.retries + 1
        rw [hexh.2]
        omega

/-- Counterexample to C3 as stated: (a) with retries = 0, a call answered
401 and then 200 (with a working token endpoint) executes 2 attempts and
succeeds, exceeding the claimed bound of maxRetries + 1 = 1, and its
second attempt follows an Auth failure, not a Server failure; (b) with
retries = 2, three consecutive 500s followed by a 200 do not succeed: the
budget is exhausted and the Server error is raised. -/
theorem c3_server_retry_cx :
    ((apiCall ⟨"id", "secret", 0, 1⟩ envAuthOk ⟨some "tok", 1000000⟩).1.mCount = 2 ∧
     (apiCall ⟨"id", "secret", 0, 1⟩ envAuthOk ⟨some "tok", 1000000⟩).2 =
       Except.ok (Json.obj [("result", Json.str "success")])) ∧
    (apiCall ⟨"id", "secret", 2, 1⟩ envThree500 ⟨some "tok", 1000000⟩).2 =
      Except.error (Exc.serverError "Server error" (some 500)
        (some (Json.obj [("error", Json.str "server error")]))) := by
  refine ⟨⟨?_, ?_⟩, ?_⟩ <;> decide

/-- Witness for C3: the bound of the amended claim at the retries = 2
scenario environment, whose oracle never answers 401. -/
theorem c3_server_retry_witness :
    (apiCall ⟨"id", "secret", 2, 1⟩ envTwo500 ⟨some "tok", 1000000⟩).1.mCount ≤ 3 :=
  (c3_server_retry ⟨"id", "secret", 2, 1⟩ envTwo500 ⟨some "tok", 1000000⟩
    (fun i => by
      match i with
      | 0 => rfl
      | 1 => rfl
      | n + 2 => rfl)).1

/-- C5 (amended): every error raised by the single-request executor is a
classified error of the taxonomy (raw transport failures are wrapped as
Network inside _execute), and any api_call that raises an unclassified
(raw) exception performed at least one token exchange: raw exceptions can
reach the caller only through the token-exchange path, whose transport
and HTTP failures propagate unchanged, never from the call-path executor
or the retry loop itself. -/
theorem c5_transport_boundary (cfg : ConnConfig) (env : Env) (st0 : ConnState) :
    (∀ (rs : RunSt) (e : Exc), (executeStep env rs).2 = Except.error e →
      e.isClassified = true) ∧
    (∀ e : Exc, (apiCall cfg env st0).2 = Except.error e → e.isClassified = false →
      1 ≤ (apiCall cfg env st0).1.tCount) := by
  constructor
  · intro rs e h
    exact classify_classified _ _ h
  · intro e hres hecl
    rcases he : ensureTokenStep cfg env ⟨st0, 0, 0, []⟩ with ⟨rs1, oe⟩
    cases oe with
    | some e2 =>
      have happ : apiCall cfg env st0 = (rs1, Except.error e2) := by
        simp [apiCall, he]
      rw [happ]
      show 1 ≤ rs1.tCount
      by_cases hcond : st0.tokenExpiresAt - 300 < env.now
      · have h1 : (refreshStep cfg env ⟨st0, 0, 0, []⟩).1.tCount = 1 := by
          simpa using refreshStep_tCount cfg env ⟨st0, 0, 0, []⟩
        have he2 : refreshStep cfg env ⟨st0, 0, 0, []⟩ = (rs1, some e2) := by
          simpa [ensureTokenStep, hcond] using he
        rw [he2] at h1
        have h1b : rs1.tCount = 1 := h1
        omega
      · simp [ensureTokenStep, hcond] at he
    | none =>
      have happ : apiCall cfg env st0 =
          apiLoop cfg env (cfg.retries + 1) 0 none rs1 := by
        simp [apiCall, he]
      rw [happ] at hres ⊢
      have h := apiLoop_raw cfg env (cfg.retries + 1) 0 none rs1
        (fun e0 h0 => Option.noConfusion h0) (fun _ => by omega) e hres hecl
      omega

/-- Witness for C5: a transport failure on a call attempt surfaces as the
classified Network error, confirmed classified by the theorem. -/
theorem c5_transport_boundary_witness :
    Exc.isClassified (Exc.networkError "Connection refused" (some "Connection refused")) =
      true :=
  (c5_transport_boundary ⟨"id", "secret", 0, 1⟩ envNetFail rsFresh.conn).1 rsFresh
    (Exc.networkError "Connection refused" (some "Connection refused")) rfl

/-- Counterexample to C5 as stated: with an expired token and a token
endpoint failing at the transport level, api_call raises the raw httpx
connection error unwrapped — a raw low-level transport exception crosses
the Transport Core boundary via the token exchange triggered inside the
call. -/
theorem c5_transport_boundary_cx :
    (apiCall ⟨"id", "secret", 1, 1⟩ envTokNetFail ⟨none, 0⟩).2 =
      Except.error (Exc.httpxError "Connection refused") ∧
    Exc.isClassified (Exc.httpxError "Connection refused") = false := by
  constructor
  · decide
  · rfl

/-- Processing of one well-formed page by the pagination driver. -/
theorem paginateGo_encode_cons (body : List (String × Json)) (key : String)
    (p : Page) (rest : List Json) (tok : Json)
    (hkey : ("next_page_token" == key) = false) :
    paginateGo body key (Page.encode key p :: rest) tok =
      (if p.next.falsy then some ([pagePayload body tok], p.items, none)
       else
        match paginateGo body key rest p.next with
        | none => none
        | some (reqs, moreItems, exc) =>
          some (pagePayload body tok :: reqs, p.items ++ moreItems, exc)) := by
  simp [paginateGo, Page.encode, Json.get, List.lookup, hkey]

/-- C6: the pagination driver sends the template body with the current
page token (initially null), yields the decoded items of each page in
server order, page by page, echoes each response's next-page token
verbatim as the page_token of the following request, and stops exactly
when that token is falsy (absent, null, or empty): given middle pages
with non-falsy tokens and a last page with a falsy token, the requests
sent carry the tokens null followed by each page's token in order, the
items are the concatenation of all pages' items, and iteration ends
normally. -/
theorem c6_pagination (body : List (String × Json)) (key : String) (ps : List Page)
    (lastP : Page) (tok : Json) (hkey : key ≠ "next_page_token")
    (hmid : ∀ p ∈ ps, p.next.falsy = false) (hlast : lastP.next.falsy = true) :
    paginateGo body key ((ps ++ [lastP]).map (Page.encode key)) tok =
      some ((tok :: ps.map Page.next).map (pagePayload body),
            ((ps ++ [lastP]).map Page.items).join, none) := by
  have hb2 : ("next_page_token" == key) = false := by
    rw [beq_eq_false_iff_ne]
    exact fun hh => hkey hh.symm
  revert hmid
  induction ps generalizing tok with
  | nil =>
    intro _hmid
    rw [List.nil_append, List.map_cons, List.map_nil,
      paginateGo_encode_cons body key lastP [] tok hb2]
    simp [hlast]
  | cons p ps ih =>
    intro hmid
    have hpf : p.next.falsy = false := hmid p (List.mem_cons_self p ps)
    have hmid2 : ∀ q ∈ ps, q.next.falsy = false :=
      fun q hq => hmid q (List.mem_cons_of_mem p hq)
    have ihn := ih p.next hmid2
    rw [List.cons_append, List.map_cons,
      paginateGo_encode_cons body key p ((ps ++ [lastP]).map (Page.encode key)) tok hb2]
    rw [if_neg (by simp [hpf])]
    rw [ihn]
    simp

/-- Witness for C6 at the spec's scenario: pages a/token2, b/token3,
c/null yield exactly the items a, b, c in order using exactly three
requests, the second and third requests carrying page_token "token2" and
"token3" verbatim. -/
theorem c6_pagination_witness :
    paginateGo [("query", Json.obj [])] "items"
        ([pageA, pageB, pageC].map (Page.encode "items")) Json.null =
      some ([[("query", Json.obj []), ("page_token", Json.null)],
             [("query", Json.obj []), ("page_token", Json.str "token2")],
             [("query", Json.obj []), ("page_token", Json.str "token3")]],
            [Json.str "a", Json.str "b", Json.str "c"], none) := by
  have h := c6_pagination [("query", Json.obj [])] "items" [pageA, pageB] pageC Json.null
    (by decide) (by decide) (by decide)
  simpa [pageA, pageB, pageC, pagePayload] using h

end Flanks
